import Mathlib

/-!
Formal model of `src/real_sense_viewer.cpp` (a PCL RealSense viewer tool).

The viewer's control state (the fields of class `RealSenseViewer`), its
keyboard dispatch (`keyboardCallback`), frame delivery (`cloudCallback`,
`savePointCloud`, `createStreamDirectory`), the display-loop body, and
`main`'s dispatch are embedded as pure functions.  External collaborators
(grabber, visualizer, bilateral filter, file system) appear as parameters:
a serial-number string, a `dirOk` oracle for `CreateDirectory` success, an
abstract cloud-transforming function standing for the bilateral filter,
and a `deviceOk` oracle for grabber construction.  The C `int` fields that
are only ever incremented from 0 or reset to 0 (`stream_id_`, `frame_id_`)
are modelled as `Nat`; the clamped `int` fields (`window_`, `threshold_`)
as `Int`; the bilateral sigmas (C `float`, stepped by plus/minus 1
resp. 0.01 and then clamped) as `ℚ` with exact arithmetic.
Console output other than the fatal-path message to `std::cerr` is pure
presentation and is not modelled; neither are the pushes of settings to
the external grabber/filter objects, which carry no program state.
-/

namespace RealSense

/-- The `pcl::RealSenseGrabber::TemporalFilteringType` enumeration, in
declaration order (`displaySettings` indexes `{"off", "median", "average"}`
by it, so `None = 0`, `Median = 1`, `Average = 2`). -/
inductive TemporalFilteringType where
  | RealSense_None
  | RealSense_Median
  | RealSense_Average
  deriving DecidableEq

/-- A point-cloud frame; only its header timestamp is observable in the
viewer's own logic (it appears in the manual-save filename). -/
structure Cloud where
  stamp : Nat
  deriving DecidableEq

/-- The mutable fields of class `RealSenseViewer` that belong to the
viewer's own logic.  `bilateral_sigmaS` / `bilateral_sigmaR` model the
`sigma_s_` / `sigma_r_` parameters stored inside the `bilateral_` member. -/
structure ViewerState where
  window_ : Int
  threshold_ : Int
  temporal_filtering_ : TemporalFilteringType
  with_bilateral_ : Bool
  bilateral_sigmaS : ℚ
  bilateral_sigmaR : ℚ
  save_stream_ : Bool
  stream_id_ : Nat
  frame_id_ : Nat
  new_cloud_ : Option Cloud
  last_cloud_ : Option Cloud
  deriving DecidableEq

/-- The constructor of `RealSenseViewer`: `window_(3)`, `threshold_(6)`,
`temporal_filtering_(RealSense_None)`, `with_bilateral_(false)`,
`save_stream_(false)`, `stream_id_(0)`, `frame_id_(0)`, then
`bilateral_.setSigmaS (5)`.  The range sigma is never set by the viewer,
so it keeps `pcl::FastBilateralFilter`'s own default of `0.05` (an
external-collaborator default; only `0.01 ≤ it` matters to the claims). -/
def initialState : ViewerState :=
  { window_ := 3
    threshold_ := 6
    temporal_filtering_ := .RealSense_None
    with_bilateral_ := false
    bilateral_sigmaS := 5
    bilateral_sigmaR := 0.05
    save_stream_ := false
    stream_id_ := 0
    frame_id_ := 0
    new_cloud_ := none
    last_cloud_ := none }

/-- `std::setfill('0') << std::setw(4) << n` for the (always nonnegative)
session and frame counters: decimal digits, left-padded with zeros to at
least four characters. -/
def pad4 (n : Nat) : String :=
  let s := toString n
  if s.length < 4 then String.mk (List.replicate (4 - s.length) '0') ++ s else s

/-- A file-system effect performed by the viewer. -/
inductive FsAction where
  | mkdir (name : String)
  | writeFile (name : String)
  deriving DecidableEq

/-- Result of one callback invocation: a normal return with the new state
and the file-system actions performed, the `exit(-1)` path of
`createStreamDirectory` (carrying the message printed to `std::cerr` and
the exit code), or the undefined-behaviour null dereference of
`last_cloud_->header.stamp` in the `p` handler. -/
inductive StepResult where
  | ok (st : ViewerState) (actions : List FsAction)
  | fatal (stderrMsg : String) (exitCode : Int)
  | nullDeref
  deriving DecidableEq

/-- `createStreamDirectory`: formats the directory name from `stream_id_`;
on `CreateDirectory` failure prints "Error creating save directory." to
`std::cerr` and calls `exit(-1)`. -/
def createStreamDirectory (dirOk : Bool) (st : ViewerState) :
    Except (String × Int) String :=
  if dirOk then .ok (pad4 st.stream_id_)
  else .error ("Error creating save directory.", -1)

/-- `savePointCloud`: writes the (current) cloud to
`<stream_id_ padded>/<frame_id_ padded>.pcd`, then increments `frame_id_`.
Returns the new state and the written filename. -/
def savePointCloud (st : ViewerState) : ViewerState × String :=
  ({ st with frame_id_ := st.frame_id_ + 1 },
   pad4 st.stream_id_ ++ "/" ++ pad4 st.frame_id_ ++ ".pcd")

/-- `cloudCallback`: under the lock, stores the (optionally bilateral
filtered) incoming cloud as `new_cloud_`, and if `save_stream_` is on,
persists it via `savePointCloud`.  The bilateral filter itself is external;
`filt` stands for `bilateral_.filter`. -/
def cloudCallback (filt : Cloud → Cloud) (wasStopped : Bool) (cloud : Cloud)
    (st : ViewerState) : ViewerState × List FsAction :=
  if wasStopped then (st, [])
  else
    let nc := if st.with_bilateral_ then filt cloud else cloud
    let st1 := { st with new_cloud_ := some nc }
    if st1.save_stream_ then
      let r := savePointCloud st1
      (r.1, [FsAction.writeFile r.2])
    else (st1, [])

/-- The `'w'`/`'W'` branch of `keyboardCallback`: window size plus/minus 1,
floored at 1 (the push to the grabber is external). -/
def handleW (c : Char) (st : ViewerState) : ViewerState :=
  if c = 'w' ∨ c = 'W' then
    let w := st.window_ + (if c = 'w' then 1 else -1)
    let w := if w < 1 then 1 else w
    { st with window_ := w }
  else st

/-- The `'t'`/`'T'` branch of `keyboardCallback`: confidence threshold
plus/minus 1, clamped into `[0, 15]`. -/
def handleT (c : Char) (st : ViewerState) : ViewerState :=
  if c = 't' ∨ c = 'T' then
    let t := st.threshold_ + (if c = 't' then 1 else -1)
    let t := if t < 0 then 0 else t
    let t := if t > 15 then 15 else t
    { st with threshold_ := t }
  else st

/-- The `'k'` branch of `keyboardCallback`: the `switch` sends `None` to
`Average` and `Average` to `None`; the `Median` case is commented out in
the source, so a `Median` value would fall through the `switch` unchanged. -/
def handleK (c : Char) (st : ViewerState) : ViewerState :=
  if c = 'k' then
    { st with temporal_filtering_ :=
        match st.temporal_filtering_ with
        | .RealSense_None => .RealSense_Average
        | .RealSense_Average => .RealSense_None
        | .RealSense_Median => .RealSense_Median }
  else st

/-- The `'b'` branch of `keyboardCallback`: toggle bilateral filtering. -/
def handleB (c : Char) (st : ViewerState) : ViewerState :=
  if c = 'b' then { st with with_bilateral_ := !st.with_bilateral_ } else st

/-- The `'a'`/`'A'` branch of `keyboardCallback`: spatial sigma plus/minus 1,
then `if (s <= 1) s = 1`. -/
def handleA (c : Char) (st : ViewerState) : ViewerState :=
  if c = 'a' ∨ c = 'A' then
    let s := st.bilateral_sigmaS + (if c = 'a' then (1 : ℚ) else -1)
    let s := if s ≤ 1 then (1 : ℚ) else s
    { st with bilateral_sigmaS := s }
  else st

/-- The `'z'`/`'Z'` branch of `keyboardCallback`: range sigma plus/minus
0.01, then `if (r <= 0.01) r = 0.01`. -/
def handleZ (c : Char) (st : ViewerState) : ViewerState :=
  if c = 'z' ∨ c = 'Z' then
    let r := st.bilateral_sigmaR + (if c = 'z' then (0.01 : ℚ) else -0.01)
    let r := if r ≤ 0.01 then (0.01 : ℚ) else r
    { st with bilateral_sigmaR := r }
  else st

/-- A keyboard event as delivered by the visualizer: whether it is a
key-down event, and its key code. -/
structure KeyboardEvent where
  keyDown : Bool
  keyCode : Char
  deriving DecidableEq

/-- `keyboardCallback`: on a key-down event the source runs its sequential
`if` chain (the key-code tests are mutually exclusive), then the `'p'`
branch saves the last displayed cloud under
`RS_<serial>_<stamp>.pcd` — dereferencing `last_cloud_` without a guard —
and the `'s'` branch toggles `save_stream_`; turning recording on
increments `stream_id_` and `frame_id_` and creates the session directory
(fatal on failure), turning it off resets `frame_id_` to 0.  The trailing
`displaySettings ()` only re-renders text and changes no state.  Key-up
events do nothing. -/
def keyboardCallback (serial : String) (dirOk : Bool) (ev : KeyboardEvent)
    (st : ViewerState) : StepResult :=
  if ev.keyDown then
    let st := handleW ev.keyCode st
    let st := handleT ev.keyCode st
    let st := handleK ev.keyCode st
    let st := handleB ev.keyCode st
    let st := handleA ev.keyCode st
    let st := handleZ ev.keyCode st
    if ev.keyCode = 'p' then
      match st.last_cloud_ with
      | none => .nullDeref
      | some c =>
          .ok st [.writeFile ("RS_" ++ serial ++ "_" ++ toString c.stamp ++ ".pcd")]
    else if ev.keyCode = 's' then
      let st := { st with save_stream_ := !st.save_stream_ }
      if st.save_stream_ then
        let st := { st with stream_id_ := st.stream_id_ + 1,
                            frame_id_ := st.frame_id_ + 1 }
        match createStreamDirectory dirOk st with
        | .ok dirName => .ok st [.mkdir dirName]
        | .error e => .fatal e.1 e.2
      else .ok { st with frame_id_ := 0 } []
    else .ok st []
  else .ok st []

/-- The body of the `run` loop's polling step: if a pending cloud exists,
it is displayed, retained as `last_cloud_`, and the pending slot is
cleared. -/
def displayStep (st : ViewerState) : ViewerState :=
  match st.new_cloud_ with
  | some c => { st with last_cloud_ := some c, new_cloud_ := none }
  | none => st

/-- An input to the running viewer: a keyboard event, a frame delivered by
the grabber (the loop is running, so `wasStopped` is false), or one
iteration of the display-loop body. -/
inductive InputEvent where
  | key (ev : KeyboardEvent)
  | frame (c : Cloud)
  | display
  deriving DecidableEq

/-- Outcome of running a sequence of inputs: normal termination with the
final state and the file-system actions in order, the fatal `exit(-1)`
path (with the actions performed before it), or the null dereference. -/
inductive RunOutcome where
  | ok (st : ViewerState) (actions : List FsAction)
  | fatal (actions : List FsAction) (stderrMsg : String) (exitCode : Int)
  | nullDeref (actions : List FsAction)
  deriving DecidableEq

/-- One input event applied to the viewer state. -/
def stepEvent (serial : String) (dirOk : Bool) (filt : Cloud → Cloud) :
    InputEvent → ViewerState → StepResult
  | .key ev, st => keyboardCallback serial dirOk ev st
  | .frame c, st =>
      let r := cloudCallback filt false c st
      .ok r.1 r.2
  | .display, st => .ok (displayStep st) []

/-- Prefix a run outcome with earlier file-system actions. -/
def appendActions (as : List FsAction) : RunOutcome → RunOutcome
  | .ok st as2 => .ok st (as ++ as2)
  | .fatal as2 m c => .fatal (as ++ as2) m c
  | .nullDeref as2 => .nullDeref (as ++ as2)

/-- Run a sequence of input events from a state, accumulating file-system
actions and stopping at the first fatal exit or null dereference. -/
def runEvents (serial : String) (dirOk : Bool) (filt : Cloud → Cloud) :
    List InputEvent → ViewerState → RunOutcome
  | [], st => .ok st []
  | e :: rest, st =>
      match stepEvent serial dirOk filt e st with
      | .ok st1 as => appendActions as (runEvents serial dirOk filt rest st1)
      | .fatal m c => .fatal [] m c
      | .nullDeref => .nullDeref []

/-- The final state of a run, when it terminated normally. -/
def outState : RunOutcome → Option ViewerState
  | .ok st _ => some st
  | _ => none

/-- All file-system actions of a run, in order. -/
def actionsOf : RunOutcome → List FsAction
  | .ok _ as => as
  | .fatal as _ _ => as
  | .nullDeref as => as

/-- The names of the files written during a run, in order. -/
def savedFiles (o : RunOutcome) : List String :=
  (actionsOf o).filterMap fun a =>
    match a with
    | .writeFile f => some f
    | .mkdir _ => none

/-- The names of the directories created during a run, in order. -/
def madeDirs (o : RunOutcome) : List String :=
  (actionsOf o).filterMap fun a =>
    match a with
    | .mkdir d => some d
    | .writeFile _ => none

/-- A key-down input event for key code `c`. -/
def keyEv (c : Char) : InputEvent := .key { keyDown := true, keyCode := c }

/-- `pcl::console::find_switch`: does the argument vector contain the
switch? -/
def findSwitch (argv : List String) (sw : String) : Bool := argv.contains sw

/-- `main`'s dispatch: `--help`/`-h` print and return 0; `--list`/`-l`
print the device list and return 0; otherwise a grabber is constructed
(`deviceOk` is whether that throws `pcl::io::IOException`) — on failure
the error is printed and 1 is returned; on success the viewer runs and
`main` returns 0 when the run loop finishes normally.  A run that hits the
`exit(-1)` path terminates the process with that code instead, and a run
that hits the null dereference has no defined exit code (`none`). -/
def mainModel (argv : List String) (deviceOk dirOk : Bool) (serial : String)
    (filt : Cloud → Cloud) (events : List InputEvent) : Option Int :=
  if findSwitch argv "--help" || findSwitch argv "-h" then some 0
  else if findSwitch argv "--list" || findSwitch argv "-l" then some 0
  else if deviceOk then
    match runEvents serial dirOk filt events initialState with
    | .ok _ _ => some 0
    | .fatal _ _ code => some code
    | .nullDeref _ => none
  else some 1

/-- Continuation of a run after a prefix's outcome: a normal prefix
continues with the remaining events, a fatal exit or null dereference
stops the run. -/
def runCont (serial : String) (dirOk : Bool) (filt : Cloud → Cloud)
    (ys : List InputEvent) : RunOutcome → RunOutcome
  | .ok st as => appendActions as (runEvents serial dirOk filt ys st)
  | o => o

/-- The state with recording just activated for the first time (the state
reached from `initialState` by one `'s'` press with directory creation
succeeding). -/
def recState : ViewerState :=
  { initialState with save_stream_ := true, stream_id_ := 1, frame_id_ := 1 }

end RealSense

namespace RealSense

/-- Turning recording on (an `'s'` key-down while `save_stream_` is off,
with directory creation succeeding): increments both counters and creates
the directory named from the new session id. -/
theorem keyboard_s_on (serial : String) (st : ViewerState)
    (h : st.save_stream_ = false) :
    keyboardCallback serial true { keyDown := true, keyCode := 's' } st =
      .ok { st with save_stream_ := true, stream_id_ := st.stream_id_ + 1,
                    frame_id_ := st.frame_id_ + 1 }
        [.mkdir (pad4 (st.stream_id_ + 1))] := by
  simp [keyboardCallback, handleW, handleT, handleK, handleB, handleA, handleZ,
        createStreamDirectory, h]

/-- Turning recording off (an `'s'` key-down while `save_stream_` is on):
resets the per-session frame counter to 0 and performs no file-system
action. -/
theorem keyboard_s_off (serial : String) (dirOk : Bool) (st : ViewerState)
    (h : st.save_stream_ = true) :
    keyboardCallback serial dirOk { keyDown := true, keyCode := 's' } st =
      .ok { st with save_stream_ := false, frame_id_ := 0 } [] := by
  simp [keyboardCallback, handleW, handleT, handleK, handleB, handleA, handleZ, h]

/-- Turning recording on while directory creation fails: the fatal path. -/
theorem keyboard_s_fail (serial : String) (st : ViewerState)
    (h : st.save_stream_ = false) :
    keyboardCallback serial false { keyDown := true, keyCode := 's' } st =
      .fatal "Error creating save directory." (-1) := by
  simp [keyboardCallback, handleW, handleT, handleK, handleB, handleA, handleZ,
        createStreamDirectory, h]

/-- A delivered frame while recording is on: the incoming (possibly
filtered) cloud becomes the pending cloud, exactly one file is written,
named from the current counters, and `frame_id_` increments. -/
theorem cloud_rec (filt : Cloud → Cloud) (c : Cloud) (st : ViewerState)
    (h : st.save_stream_ = true) :
    cloudCallback filt false c st =
      ({ st with new_cloud_ := some (if st.with_bilateral_ then filt c else c),
                 frame_id_ := st.frame_id_ + 1 },
       [.writeFile (pad4 st.stream_id_ ++ "/" ++ pad4 st.frame_id_ ++ ".pcd")]) := by
  simp [cloudCallback, savePointCloud, h]

/-- A `'p'` key-down with no last displayed cloud reaches the unguarded
`last_cloud_->header.stamp` dereference. -/
theorem keyboard_p_null (serial : String) (dirOk : Bool) (st : ViewerState)
    (h : st.last_cloud_ = none) :
    keyboardCallback serial dirOk { keyDown := true, keyCode := 'p' } st =
      .nullDeref := by
  simp [keyboardCallback, handleW, handleT, handleK, handleB, handleA, handleZ, h]

/-- A `'k'` key-down only applies `handleK`. -/
theorem keyboard_k (serial : String) (dirOk : Bool) (st : ViewerState) :
    keyboardCallback serial dirOk { keyDown := true, keyCode := 'k' } st =
      .ok (handleK 'k' st) [] := by
  simp [keyboardCallback, handleW, handleT, handleB, handleA, handleZ]

/-- A `'t'`/`'T'` key-down only applies `handleT`. -/
theorem keyboard_tT (serial : String) (dirOk : Bool) (c : Char)
    (h : c = 't' ∨ c = 'T') (st : ViewerState) :
    keyboardCallback serial dirOk { keyDown := true, keyCode := c } st =
      .ok (handleT c st) [] := by
  rcases h with h | h <;> subst h <;>
    simp [keyboardCallback, handleW, handleK, handleB, handleA, handleZ]

/-- An `'a'`/`'A'` key-down only applies `handleA`. -/
theorem keyboard_aA (serial : String) (dirOk : Bool) (c : Char)
    (h : c = 'a' ∨ c = 'A') (st : ViewerState) :
    keyboardCallback serial dirOk { keyDown := true, keyCode := c } st =
      .ok (handleA c st) [] := by
  rcases h with h | h <;> subst h <;>
    simp [keyboardCallback, handleW, handleT, handleK, handleB, handleZ]

/-- A `'z'`/`'Z'` key-down only applies `handleZ`. -/
theorem keyboard_zZ (serial : String) (dirOk : Bool) (c : Char)
    (h : c = 'z' ∨ c = 'Z') (st : ViewerState) :
    keyboardCallback serial dirOk { keyDown := true, keyCode := c } st =
      .ok (handleZ c st) [] := by
  rcases h with h | h <;> subst h <;>
    simp [keyboardCallback, handleW, handleT, handleK, handleB, handleA]

theorem appendActions_nil (o : RunOutcome) : appendActions [] o = o := by
  cases o <;> simp [appendActions]

theorem appendActions_append (as bs : List FsAction) (o : RunOutcome) :
    appendActions as (appendActions bs o) = appendActions (as ++ bs) o := by
  cases o <;> simp [appendActions]

/-- Unfold one successful step of a run. -/
theorem run_cons (serial : String) (dirOk : Bool) (filt : Cloud → Cloud)
    (e : InputEvent) (rest : List InputEvent) (st st1 : ViewerState)
    (as : List FsAction)
    (h : stepEvent serial dirOk filt e st = .ok st1 as) :
    runEvents serial dirOk filt (e :: rest) st =
      appendActions as (runEvents serial dirOk filt rest st1) := by
  simp only [runEvents, h]

/-- Runs compose over list concatenation. -/
theorem runEvents_append (serial : String) (dirOk : Bool) (filt : Cloud → Cloud)
    (xs ys : List InputEvent) (st : ViewerState) :
    runEvents serial dirOk filt (xs ++ ys) st =
      runCont serial dirOk filt ys (runEvents serial dirOk filt xs st) := by
  induction xs generalizing st with
  | nil => simp [runEvents, runCont, appendActions_nil]
  | cons e rest ih =>
    simp only [List.cons_append, runEvents, List.append_eq]
    cases stepEvent serial dirOk filt e st with
    | ok st1 as =>
      dsimp only
      rw [ih]
      cases runEvents serial dirOk filt rest st1 with
      | ok st2 as2 =>
        simp only [runCont, appendActions]
        cases runEvents serial dirOk filt ys st2 <;> simp
      | fatal as2 m c => simp [runCont, appendActions]
      | nullDeref as2 => simp [runCont, appendActions]
    | fatal m c => simp [runCont]
    | nullDeref => simp [runCont]

theorem range_map_files (sid k n : Nat) :
    (List.range (n + 1)).map (fun i =>
        FsAction.writeFile (pad4 sid ++ "/" ++ pad4 (k + i) ++ ".pcd")) =
      FsAction.writeFile (pad4 sid ++ "/" ++ pad4 k ++ ".pcd") ::
        (List.range n).map (fun i =>
          FsAction.writeFile (pad4 sid ++ "/" ++ pad4 (k + 1 + i) ++ ".pcd")) := by
  rw [List.range_succ_eq_map]
  simp only [List.map_cons, Nat.add_zero, List.map_map]
  have hf : ((fun i => FsAction.writeFile (pad4 sid ++ "/" ++ pad4 (k + i) ++ ".pcd"))
        ∘ Nat.succ)
      = fun i => FsAction.writeFile (pad4 sid ++ "/" ++ pad4 (k + 1 + i) ++ ".pcd") := by
    funext i
    simp only [Function.comp_apply]
    rw [show k + Nat.succ i = k + 1 + i from by omega]
  rw [hf]

/-- Delivering `n` frames while recording is on writes exactly one file
per frame, with consecutive frame indices starting at the current
`frame_id_`, and advances `frame_id_` by `n` while preserving
`save_stream_` and `stream_id_`. -/
theorem run_frames (serial : String) (dirOk : Bool) (filt : Cloud → Cloud)
    (c : Cloud) (n : Nat) (st : ViewerState) (h : st.save_stream_ = true) :
    ∃ st1, runEvents serial dirOk filt (List.replicate n (.frame c)) st =
        .ok st1 ((List.range n).map fun i =>
          .writeFile (pad4 st.stream_id_ ++ "/" ++ pad4 (st.frame_id_ + i) ++ ".pcd"))
      ∧ st1.save_stream_ = true ∧ st1.stream_id_ = st.stream_id_
      ∧ st1.frame_id_ = st.frame_id_ + n := by
  induction n generalizing st with
  | zero => exact ⟨st, by simp [runEvents], h, rfl, rfl⟩
  | succ n ih =>
    rw [List.replicate_succ]
    simp only [runEvents, stepEvent, cloud_rec filt c st h]
    obtain ⟨st1, hrun, hsv, hsi, hfi⟩ :=
      ih { st with new_cloud_ := some (if st.with_bilateral_ then filt c else c),
                   frame_id_ := st.frame_id_ + 1 } h
    dsimp only at hrun hsi hfi
    rw [hrun]
    refine ⟨st1, ?_, hsv, hsi, by omega⟩
    rw [range_map_files st.stream_id_ st.frame_id_ n]
    simp [appendActions]

end RealSense

namespace RealSense

/-- After any `'t'`/`'T'` press the clamp leaves the threshold in `[0, 15]`
(whatever it was before). -/
theorem handleT_range (c : Char) (st : ViewerState) (h : c = 't' ∨ c = 'T') :
    0 ≤ (handleT c st).threshold_ ∧ (handleT c st).threshold_ ≤ 15 := by
  rcases h with h | h <;> subst h <;>
    simp only [handleT] <;> split_ifs <;> simp_all

/-- After any `'a'`/`'A'` press the clamp leaves the spatial sigma at 1 or
above. -/
theorem handleA_ge (c : Char) (st : ViewerState) (h : c = 'a' ∨ c = 'A') :
    1 ≤ (handleA c st).bilateral_sigmaS := by
  rcases h with h | h <;> subst h <;>
    simp only [handleA] <;> split_ifs <;> simp_all <;> linarith

/-- After any `'z'`/`'Z'` press the clamp leaves the range sigma at 0.01
or above. -/
theorem handleZ_ge (c : Char) (st : ViewerState) (h : c = 'z' ∨ c = 'Z') :
    (0.01 : ℚ) ≤ (handleZ c st).bilateral_sigmaR := by
  rcases h with h | h <;> subst h <;>
    simp only [handleZ] <;> split_ifs <;> simp_all <;> linarith

/-- Any sequence of `'t'`/`'T'` presses from a state whose threshold is in
`[0, 15]` runs normally, writes nothing, and ends with the threshold in
`[0, 15]`. -/
theorem run_tT (serial : String) (dirOk : Bool) (filt : Cloud → Cloud)
    (l : List InputEvent) (st : ViewerState)
    (h0 : 0 ≤ st.threshold_) (h15 : st.threshold_ ≤ 15)
    (h : ∀ e ∈ l, e = keyEv 't' ∨ e = keyEv 'T') :
    ∃ st1, runEvents serial dirOk filt l st = .ok st1 []
      ∧ 0 ≤ st1.threshold_ ∧ st1.threshold_ ≤ 15 := by
  induction l generalizing st with
  | nil => exact ⟨st, by simp [runEvents], h0, h15⟩
  | cons e rest ih =>
    have he := h e (by simp)
    have hc : ∃ c, (c = 't' ∨ c = 'T') ∧ e = keyEv c := by
      rcases he with he | he <;> exact ⟨_, by simp, he⟩
    obtain ⟨c, hc1, hc2⟩ := hc
    subst hc2
    have hstep : stepEvent serial dirOk filt (keyEv c) st = .ok (handleT c st) [] := by
      simp only [stepEvent, keyEv]
      exact keyboard_tT serial dirOk c hc1 st
    rw [run_cons serial dirOk filt _ rest st _ _ hstep]
    obtain ⟨st1, hr, hr0, hr15⟩ :=
      ih (handleT c st) (handleT_range c st hc1).1 (handleT_range c st hc1).2
        (fun e' he' => h e' (by simp [he']))
    rw [hr]
    exact ⟨st1, by simp [appendActions], hr0, hr15⟩

/-- Any sequence of `'a'`/`'A'` presses from a state whose spatial sigma
is at least 1 runs normally and keeps it at least 1. -/
theorem run_aA (serial : String) (dirOk : Bool) (filt : Cloud → Cloud)
    (l : List InputEvent) (st : ViewerState)
    (h1 : 1 ≤ st.bilateral_sigmaS)
    (h : ∀ e ∈ l, e = keyEv 'a' ∨ e = keyEv 'A') :
    ∃ st1, runEvents serial dirOk filt l st = .ok st1 []
      ∧ 1 ≤ st1.bilateral_sigmaS := by
  induction l generalizing st with
  | nil => exact ⟨st, by simp [runEvents], h1⟩
  | cons e rest ih =>
    have he := h e (by simp)
    have hc : ∃ c, (c = 'a' ∨ c = 'A') ∧ e = keyEv c := by
      rcases he with he | he <;> exact ⟨_, by simp, he⟩
    obtain ⟨c, hc1, hc2⟩ := hc
    subst hc2
    have hstep : stepEvent serial dirOk filt (keyEv c) st = .ok (handleA c st) [] := by
      simp only [stepEvent, keyEv]
      exact keyboard_aA serial dirOk c hc1 st
    rw [run_cons serial dirOk filt _ rest st _ _ hstep]
    obtain ⟨st1, hr, hrge⟩ :=
      ih (handleA c st) (handleA_ge c st hc1) (fun e' he' => h e' (by simp [he']))
    rw [hr]
    exact ⟨st1, by simp [appendActions], hrge⟩

/-- Any sequence of `'z'`/`'Z'` presses from a state whose range sigma is
at least 0.01 runs normally and keeps it at least 0.01. -/
theorem run_zZ (serial : String) (dirOk : Bool) (filt : Cloud → Cloud)
    (l : List InputEvent) (st : ViewerState)
    (h1 : (0.01 : ℚ) ≤ st.bilateral_sigmaR)
    (h : ∀ e ∈ l, e = keyEv 'z' ∨ e = keyEv 'Z') :
    ∃ st1, runEvents serial dirOk filt l st = .ok st1 []
      ∧ (0.01 : ℚ) ≤ st1.bilateral_sigmaR := by
  induction l generalizing st with
  | nil => exact ⟨st, by simp [runEvents], h1⟩
  | cons e rest ih =>
    have he := h e (by simp)
    have hc : ∃ c, (c = 'z' ∨ c = 'Z') ∧ e = keyEv c := by
      rcases he with he | he <;> exact ⟨_, by simp, he⟩
    obtain ⟨c, hc1, hc2⟩ := hc
    subst hc2
    have hstep : stepEvent serial dirOk filt (keyEv c) st = .ok (handleZ c st) [] := by
      simp only [stepEvent, keyEv]
      exact keyboard_zZ serial dirOk c hc1 st
    rw [run_cons serial dirOk filt _ rest st _ _ hstep]
    obtain ⟨st1, hr, hrge⟩ :=
      ih (handleZ c st) (handleZ_ge c st hc1) (fun e' he' => h e' (by simp [he']))
    rw [hr]
    exact ⟨st1, by simp [appendActions], hrge⟩

end RealSense

namespace RealSense

/-- Claim C3, amended: from any temporal-filter mode, pressing `'k'` twice
(not three times) returns the temporal filter mode to its starting value;
the keyboard cycle none → average → none has period two (and the
unreachable `Median` value is a fixed point of the `'k'` handler). -/
theorem C3_holds (serial : String) (dirOk : Bool) (filt : Cloud → Cloud)
    (st : ViewerState) :
    ∃ st1, runEvents serial dirOk filt [keyEv 'k', keyEv 'k'] st = .ok st1 []
      ∧ st1.temporal_filtering_ = st.temporal_filtering_ := by
  have hstep : ∀ s : ViewerState,
      stepEvent serial dirOk filt (keyEv 'k') s = .ok (handleK 'k' s) [] :=
    fun s => keyboard_k serial dirOk s
  refine ⟨handleK 'k' (handleK 'k' st), ?_, ?_⟩
  · rw [run_cons serial dirOk filt _ _ st _ _ (hstep st),
        run_cons serial dirOk filt _ _ _ _ _ (hstep _)]
    simp [runEvents, appendActions]
  · cases h : st.temporal_filtering_ <;> simp [handleK, h]

/-- Claim C3 as stated is false: starting from the initial mode `None`,
pressing `'k'` three times leaves the mode at `Average`, which differs
from the starting value. -/
theorem C3_counterexample :
    (outState (runEvents "S" true id [keyEv 'k', keyEv 'k', keyEv 'k'] initialState)).map
        (fun s => s.temporal_filtering_) = some .RealSense_Average
    ∧ initialState.temporal_filtering_ = .RealSense_None
    ∧ TemporalFilteringType.RealSense_Average ≠ TemporalFilteringType.RealSense_None := by
  decide

/-- Claim C4: while recording is active, every delivered frame results in
exactly one saved file (`n` frames yield the `n`-element file list below),
and the frame indices used within the session are `frame_id_`,
`frame_id_ + 1`, …, consecutive, hence strictly increasing with no gaps. -/
theorem C4_holds (serial : String) (dirOk : Bool) (filt : Cloud → Cloud) (c : Cloud)
    (n : Nat) (st : ViewerState) (h : st.save_stream_ = true) :
    ∃ st1, runEvents serial dirOk filt (List.replicate n (.frame c)) st =
        .ok st1 ((List.range n).map fun i =>
          .writeFile (pad4 st.stream_id_ ++ "/" ++ pad4 (st.frame_id_ + i) ++ ".pcd"))
      ∧ st1.save_stream_ = true ∧ st1.frame_id_ = st.frame_id_ + n := by
  obtain ⟨st1, h1, h2, h3, h4⟩ := run_frames serial dirOk filt c n st h
  exact ⟨st1, h1, h2, h4⟩

/-- Witness for C4: three frames delivered in the freshly activated
recording state. -/
theorem C4_witness :
    recState.save_stream_ = true ∧
    ∃ st1, runEvents "S" true id (List.replicate 3 (.frame ⟨7⟩)) recState =
        .ok st1 ((List.range 3).map fun i =>
          .writeFile (pad4 recState.stream_id_ ++ "/" ++ pad4 (recState.frame_id_ + i) ++ ".pcd"))
      ∧ st1.save_stream_ = true ∧ st1.frame_id_ = recState.frame_id_ + 3 :=
  ⟨rfl, C4_holds "S" true id ⟨7⟩ 3 recState rfl⟩

/-- Claim C5: pressing `'p'` while no last displayed frame exists reaches
the unguarded `last_cloud_->header.stamp` null dereference, and at startup
(`initialState`, before any frame has been displayed) `last_cloud_` is
indeed null. -/
theorem C5_holds (serial : String) (dirOk : Bool) (st : ViewerState)
    (h : st.last_cloud_ = none) :
    keyboardCallback serial dirOk { keyDown := true, keyCode := 'p' } st = .nullDeref
    ∧ initialState.last_cloud_ = none :=
  ⟨keyboard_p_null serial dirOk st h, rfl⟩

/-- Witness for C5: pressing `'p'` in the initial state. -/
theorem C5_witness :
    keyboardCallback "S" true { keyDown := true, keyCode := 'p' } initialState = .nullDeref
    ∧ initialState.last_cloud_ = none :=
  C5_holds "S" true initialState rfl

/-- Claim C6: for every sequence of `'t'`/`'T'` presses from the initial
state (default threshold 6), the confidence threshold is in `[0, 15]`
afterwards; since this holds for all such sequences, it holds after each
press of any sequence (apply it to the prefix ending at that press). -/
theorem C6_holds (serial : String) (dirOk : Bool) (filt : Cloud → Cloud)
    (l : List InputEvent) (h : ∀ e ∈ l, e = keyEv 't' ∨ e = keyEv 'T') :
    ∃ st1, runEvents serial dirOk filt l initialState = .ok st1 []
      ∧ 0 ≤ st1.threshold_ ∧ st1.threshold_ ≤ 15 :=
  run_tT serial dirOk filt l initialState (by decide) (by decide) h

/-- Witness for C6: the sequence T, T, t. -/
theorem C6_witness :
    ∃ st1, runEvents "S" true id [keyEv 'T', keyEv 'T', keyEv 't'] initialState = .ok st1 []
      ∧ 0 ≤ st1.threshold_ ∧ st1.threshold_ ≤ 15 :=
  C6_holds "S" true id [keyEv 'T', keyEv 'T', keyEv 't'] (by decide)

/-- Claim C7: for every sequence of `'a'`/`'A'` presses from the initial
state the spatial sigma stays at least 1, and for every sequence of
`'z'`/`'Z'` presses the range sigma stays at least 0.01 (prefixes of a
sequence are themselves such sequences, so this bounds every
intermediate state as well). -/
theorem C7_holds (serial : String) (dirOk : Bool) (filt : Cloud → Cloud) :
    (∀ l, (∀ e ∈ l, e = keyEv 'a' ∨ e = keyEv 'A') →
      ∃ st1, runEvents serial dirOk filt l initialState = .ok st1 []
        ∧ 1 ≤ st1.bilateral_sigmaS)
    ∧ (∀ l, (∀ e ∈ l, e = keyEv 'z' ∨ e = keyEv 'Z') →
      ∃ st1, runEvents serial dirOk filt l initialState = .ok st1 []
        ∧ (0.01 : ℚ) ≤ st1.bilateral_sigmaR) :=
  ⟨fun l h => run_aA serial dirOk filt l initialState (by norm_num [initialState]) h,
   fun l h => run_zZ serial dirOk filt l initialState (by norm_num [initialState]) h⟩

/-- Witness for C7: two `'A'` presses, and two `'Z'` presses. -/
theorem C7_witness :
    (∃ st1, runEvents "S" true id [keyEv 'A', keyEv 'A'] initialState = .ok st1 []
      ∧ 1 ≤ st1.bilateral_sigmaS)
    ∧ (∃ st1, runEvents "S" true id [keyEv 'Z', keyEv 'Z'] initialState = .ok st1 []
      ∧ (0.01 : ℚ) ≤ st1.bilateral_sigmaR) :=
  ⟨(C7_holds "S" true id).1 _ (by decide), (C7_holds "S" true id).2 _ (by decide)⟩

/-- Claim C8: if directory creation fails when recording is turned on, the
run ends at once in the fatal outcome — "Error creating save directory."
on standard error and `exit(-1)` — performing no file-system action and
processing none of the remaining events, whatever they are (no retry, no
continuation). -/
theorem C8_holds (serial : String) (filt : Cloud → Cloud)
    (rest : List InputEvent) (st : ViewerState) (h : st.save_stream_ = false) :
    runEvents serial false filt (keyEv 's' :: rest) st =
      .fatal [] "Error creating save directory." (-1) := by
  have hstep : stepEvent serial false filt (keyEv 's') st
      = .fatal "Error creating save directory." (-1) := keyboard_s_fail serial st h
  simp only [runEvents, hstep]

/-- Witness for C8: an `'s'` press with directory creation failing,
followed by two frames that are never processed. -/
theorem C8_witness :
    initialState.save_stream_ = false ∧
    runEvents "S" false id [keyEv 's', .frame ⟨3⟩, .frame ⟨4⟩] initialState =
      .fatal [] "Error creating save directory." (-1) :=
  ⟨rfl, C8_holds "S" id [.frame ⟨3⟩, .frame ⟨4⟩] initialState rfl⟩

/-- Claim C10: a key-down for any key other than the documented commands
(w/W, t/T, k, b, a/A, z/Z, p, s), and every key-up event, leaves the whole
viewer state unchanged and performs no file-system action. -/
theorem C10_holds (serial : String) (dirOk : Bool) (ev : KeyboardEvent)
    (st : ViewerState)
    (h : ev.keyDown = false ∨
      ev.keyCode ∉ (['w', 'W', 't', 'T', 'k', 'b', 'a', 'A', 'z', 'Z', 'p', 's'] : List Char)) :
    keyboardCallback serial dirOk ev st = .ok st [] := by
  obtain ⟨down, c⟩ := ev
  rcases h with h | h
  · simp only at h
    subst h
    rfl
  · cases down
    · rfl
    · simp only [List.mem_cons, List.not_mem_nil, or_false] at h
      push_neg at h
      obtain ⟨h1, h2, h3, h4, h5, h6, h7, h8, h9, h10, h11, h12⟩ := h
      simp [keyboardCallback, handleW, handleT, handleK, handleB, handleA, handleZ,
            h1, h2, h3, h4, h5, h6, h7, h8, h9, h10, h11, h12]

/-- Witness for C10: an unknown key (`'q'`) pressed down, and a key-up of
a documented key (`'s'`). -/
theorem C10_witness :
    keyboardCallback "S" true { keyDown := true, keyCode := 'q' } initialState
      = .ok initialState []
    ∧ keyboardCallback "S" true { keyDown := false, keyCode := 's' } initialState
      = .ok initialState [] :=
  ⟨C10_holds "S" true { keyDown := true, keyCode := 'q' } initialState (by decide),
   C10_holds "S" true { keyDown := false, keyCode := 's' } initialState (by decide)⟩

end RealSense

namespace RealSense

/-- Claim C1 as stated is false: after pressing `'s'` in the initial state
and delivering three frames, the saved files are `0001/0001.pcd`,
`0001/0002.pcd` and `0001/0003.pcd` — no file named `0001/0000` (or
`0001/0000.pcd`) is ever written, because the `'s'` handler increments
`frame_id_` once on activation. -/
theorem C1_counterexample :
    savedFiles (runEvents "S" true id
        [keyEv 's', .frame ⟨10⟩, .frame ⟨11⟩, .frame ⟨12⟩] initialState)
      = ["0001/0001.pcd", "0001/0002.pcd", "0001/0003.pcd"]
    ∧ "0001/0000" ∉ savedFiles (runEvents "S" true id
        [keyEv 's', .frame ⟨10⟩, .frame ⟨11⟩, .frame ⟨12⟩] initialState)
    ∧ "0001/0000.pcd" ∉ savedFiles (runEvents "S" true id
        [keyEv 's', .frame ⟨10⟩, .frame ⟨11⟩, .frame ⟨12⟩] initialState) := by
  decide

/-- Claim C1, amended: from the initial state, pressing `'s'` creates the
session directory `0001` and starts recording; the next three delivered
frames are saved as `0001/0001.pcd`, `0001/0002.pcd` and `0001/0003.pcd`
(numbering starts at 0001 because activation increments the frame counter
once); pressing `'s'` again stops recording and resets the per-session
frame counter to 0. -/
theorem C1_holds :
    madeDirs (runEvents "S" true id [keyEv 's'] initialState) = ["0001"]
    ∧ (outState (runEvents "S" true id [keyEv 's'] initialState)).map
        (fun s => s.save_stream_) = some true
    ∧ actionsOf (runEvents "S" true id
        [keyEv 's', .frame ⟨10⟩, .frame ⟨11⟩, .frame ⟨12⟩, keyEv 's'] initialState)
      = [.mkdir "0001", .writeFile "0001/0001.pcd", .writeFile "0001/0002.pcd",
         .writeFile "0001/0003.pcd"]
    ∧ (outState (runEvents "S" true id
        [keyEv 's', .frame ⟨10⟩, .frame ⟨11⟩, .frame ⟨12⟩, keyEv 's'] initialState)).map
        (fun s => (s.save_stream_, s.frame_id_)) = some (false, 0) := by
  decide

/-- Claim C9 as stated is false: a run in which the device opens fine but
session-directory creation fails after an `'s'` press terminates the
process via `exit(-1)` — an exit status that is neither 0 nor 1. -/
theorem C9_counterexample :
    mainModel ["rs_viewer"] true false "S" id [keyEv 's'] = some (-1)
    ∧ (some (-1) : Option Int) ≠ some 0 ∧ (some (-1) : Option Int) ≠ some 1 := by
  decide

/-- Claim C9, amended: `--help`/`-h` and `--list`/`-l` exit 0; without
those flags the exit code is 1 when the device cannot be opened; with the
device open, a run loop that finishes normally exits 0, but a run that
hits the recording-directory-creation failure terminates with that path's
`exit(-1)` code instead of 0. -/
theorem C9_holds :
    (∀ argv deviceOk dirOk serial filt events,
      findSwitch argv "--help" = true ∨ findSwitch argv "-h" = true →
      mainModel argv deviceOk dirOk serial filt events = some 0)
    ∧ (∀ argv deviceOk dirOk serial filt events,
      findSwitch argv "--list" = true ∨ findSwitch argv "-l" = true →
      mainModel argv deviceOk dirOk serial filt events = some 0)
    ∧ (∀ argv dirOk serial filt events,
      findSwitch argv "--help" = false → findSwitch argv "-h" = false →
      findSwitch argv "--list" = false → findSwitch argv "-l" = false →
      mainModel argv false dirOk serial filt events = some 1)
    ∧ (∀ argv dirOk serial filt events st1 as,
      findSwitch argv "--help" = false → findSwitch argv "-h" = false →
      findSwitch argv "--list" = false → findSwitch argv "-l" = false →
      runEvents serial dirOk filt events initialState = .ok st1 as →
      mainModel argv true dirOk serial filt events = some 0)
    ∧ (∀ argv dirOk serial filt events as msg code,
      findSwitch argv "--help" = false → findSwitch argv "-h" = false →
      findSwitch argv "--list" = false → findSwitch argv "-l" = false →
      runEvents serial dirOk filt events initialState = .fatal as msg code →
      mainModel argv true dirOk serial filt events = some code) := by
  refine ⟨?_, ?_, ?_, ?_, ?_⟩
  · intro argv deviceOk dirOk serial filt events h
    rcases h with h | h <;> simp [mainModel, h]
  · intro argv deviceOk dirOk serial filt events h
    by_cases hh : findSwitch argv "--help" = true ∨ findSwitch argv "-h" = true
    · rcases hh with hh | hh <;> simp [mainModel, hh]
    · rcases h with h | h <;>
        cases hh1 : findSwitch argv "--help" <;> cases hh2 : findSwitch argv "-h" <;>
          simp_all [mainModel]
  · intro argv dirOk serial filt events h1 h2 h3 h4
    simp [mainModel, h1, h2, h3, h4]
  · intro argv dirOk serial filt events st1 as h1 h2 h3 h4 hrun
    simp [mainModel, h1, h2, h3, h4, hrun]
  · intro argv dirOk serial filt events as msg code h1 h2 h3 h4 hrun
    simp [mainModel, h1, h2, h3, h4, hrun]

/-- Witness for C9's amended theorem: each conjunct at a concrete
command line. -/
theorem C9_witness :
    mainModel ["rs_viewer", "--help"] false false "S" id [] = some 0
    ∧ mainModel ["rs_viewer", "--list"] false false "S" id [] = some 0
    ∧ mainModel ["rs_viewer"] false true "S" id [] = some 1
    ∧ mainModel ["rs_viewer"] true true "S" id [] = some 0 :=
  ⟨(C9_holds).1 ["rs_viewer", "--help"] false false "S" id [] (by decide),
   (C9_holds).2.1 ["rs_viewer", "--list"] false false "S" id [] (by decide),
   (C9_holds).2.2.1 ["rs_viewer"] true "S" id [] (by decide) (by decide) (by decide) (by decide),
   (C9_holds).2.2.2.1 ["rs_viewer"] true "S" id [] initialState [] (by decide) (by decide)
     (by decide) (by decide) rfl⟩

end RealSense

namespace RealSense

/-- Claim C2 as stated is false: activating, delivering one frame,
deactivating and reactivating recording, then delivering one frame, saves
`0001/0001.pcd` and `0002/0001.pcd` — the numbering within each session
directory restarts at 1, not 0 (no `.../0000` file is ever written),
though the two session directories `0001` and `0002` are indeed
distinct. -/
theorem C2_counterexample :
    savedFiles (runEvents "S" true id
        [keyEv 's', .frame ⟨1⟩, keyEv 's', keyEv 's', .frame ⟨2⟩] initialState)
      = ["0001/0001.pcd", "0002/0001.pcd"]
    ∧ madeDirs (runEvents "S" true id
        [keyEv 's', .frame ⟨1⟩, keyEv 's', keyEv 's', .frame ⟨2⟩] initialState)
      = ["0001", "0002"]
    ∧ "0001/0000.pcd" ∉ savedFiles (runEvents "S" true id
        [keyEv 's', .frame ⟨1⟩, keyEv 's', keyEv 's', .frame ⟨2⟩] initialState)
    ∧ "0002/0000.pcd" ∉ savedFiles (runEvents "S" true id
        [keyEv 's', .frame ⟨1⟩, keyEv 's', keyEv 's', .frame ⟨2⟩] initialState)
    ∧ "0002/0000" ∉ savedFiles (runEvents "S" true id
        [keyEv 's', .frame ⟨1⟩, keyEv 's', keyEv 's', .frame ⟨2⟩] initialState) := by
  decide

/-- Claim C2, amended: pressing `'s'` to enable recording, delivering any
`n` frames, pressing `'s'` to disable and `'s'` again to re-enable, then
delivering any `m` frames, produces two distinct session directories
(`0001` and `0002`), and within each session the saved-frame numbering
restarts at 1 (`0001`, `0002`, …), consecutive and gap-free. -/
theorem C2_holds (serial : String) (filt : Cloud → Cloud) (c c' : Cloud) (n m : Nat) :
    ∃ st1, runEvents serial true filt
        (keyEv 's' :: (List.replicate n (.frame c)
          ++ (keyEv 's' :: keyEv 's' :: List.replicate m (.frame c')))) initialState
      = .ok st1
          (.mkdir (pad4 1) ::
            (((List.range n).map fun i =>
                .writeFile (pad4 1 ++ "/" ++ pad4 (1 + i) ++ ".pcd"))
              ++ (.mkdir (pad4 2) ::
                ((List.range m).map fun i =>
                  .writeFile (pad4 2 ++ "/" ++ pad4 (1 + i) ++ ".pcd")))))
      ∧ pad4 1 ≠ pad4 2 := by
  have h0 : stepEvent serial true filt (keyEv 's') initialState
      = .ok recState [.mkdir (pad4 1)] := rfl
  rw [run_cons serial true filt _ _ _ _ _ h0]
  obtain ⟨stA, hA, hAsv, hAsi, hAfi⟩ := run_frames serial true filt c n recState rfl
  rw [runEvents_append, hA]
  simp only [runCont]
  have h1 : stepEvent serial true filt (keyEv 's') stA
      = .ok { stA with save_stream_ := false, frame_id_ := 0 } [] :=
    keyboard_s_off serial true stA hAsv
  rw [run_cons serial true filt _ _ _ _ _ h1]
  have h2 : stepEvent serial true filt (keyEv 's')
        { stA with save_stream_ := false, frame_id_ := 0 }
      = .ok { stA with save_stream_ := true, stream_id_ := stA.stream_id_ + 1,
                       frame_id_ := 1 } [.mkdir (pad4 (stA.stream_id_ + 1))] :=
    keyboard_s_on serial _ rfl
  rw [run_cons serial true filt _ _ _ _ _ h2]
  obtain ⟨stB, hB, hBsv, hBsi, hBfi⟩ := run_frames serial true filt c' m
    { stA with save_stream_ := true, stream_id_ := stA.stream_id_ + 1, frame_id_ := 1 } rfl
  rw [hB]
  refine ⟨stB, ?_, by decide⟩
  simp only [appendActions, hAsi]
  simp [recState, initialState, appendActions]
end RealSense
